import Mathlib

/-!
Verification of the wgpu_dance repository: a shallow embedding of the
render-model abstraction (`src/model.rs`), the window-application shell
(`src/app.rs`), the resource loader (`src/resource.rs`) and the two-phase
resize logic of the `load_model` example, together with theorems settling
the specification's testable properties.

GPU buffers are modelled by their observable data (label, byte contents,
usage); render passes by the ordered list of commands issued into them;
`assert!` failures and `unwrap` panics by `Option`/`none`; `Result` by
`Except`.
-/

namespace WgpuDance

/-! ## Embedding of src/model.rs -/

inductive BufferUsage where
  | vertex
  | index
deriving DecidableEq, Repr

/-- A GPU buffer as created by `device.create_buffer_init`: its diagnostic
label, its byte contents, and its usage flag. -/
structure Buffer where
  label : String
  contents : List Nat
  usage : BufferUsage
deriving DecidableEq, Repr

/-- The `RenderVertex: Zeroable + Pod` bound: a vertex type has a fixed byte
size and `bytemuck::cast_slice` serialises each value to exactly that many
bytes. -/
structure Pod (V : Type) where
  size : Nat
  toBytes : V → List Nat
  length_toBytes : ∀ v, (toBytes v).length = size

/-- Little-endian byte representation of one `u32` index value. -/
def u32Bytes (n : Nat) : List Nat :=
  [n % 256, n / 256 % 256, n / 65536 % 256, n / 16777216 % 256]

/-- `bytemuck::cast_slice` on a `&[u32]`. -/
def castSliceU32 (l : List Nat) : List Nat := l.flatMap u32Bytes

/-- `bytemuck::cast_slice` on a `&[V]` for a Pod vertex type. -/
def castSliceV {V : Type} (pod : Pod V) (l : List V) : List Nat :=
  l.flatMap pod.toBytes

/-- `Model<V>` from src/model.rs. -/
structure Model (V : Type) where
  vertices : List V
  indices : List Nat
  vertex_buffer : Option Buffer
  index_buffer : Option Buffer
  label : String

/-- `Model::new`: copies the slices, leaves both buffers unallocated. -/
def Model.new {V : Type} (vertices : List V) (indices : List Nat)
    (label : String) : Model V :=
  { vertices := vertices
    indices := indices
    vertex_buffer := none
    index_buffer := none
    label := label }

/-- `Model::alloc_buffer`: asserts both buffers are `None` (an `assert!`
failure aborts, modelled as `none`), then creates the vertex and index
buffers from the packed vertex/index data and stores them. -/
def Model.alloc_buffer {V : Type} (pod : Pod V) (m : Model V) :
    Option (Model V) :=
  if m.vertex_buffer.isSome then none
  else if m.index_buffer.isSome then none
  else
    let vertex_buffer : Buffer :=
      { label := m.label ++ " vertex buffer"
        contents := castSliceV pod m.vertices
        usage := BufferUsage.vertex }
    let index_buffer : Buffer :=
      { label := m.label ++ " index buffer"
        contents := castSliceU32 m.indices
        usage := BufferUsage.index }
    some { m with
            vertex_buffer := some vertex_buffer
            index_buffer := some index_buffer }

/-- A texture resource; its pixel data is irrelevant to the draw claims, so
it is identified by an id. -/
structure Texture where
  id : Nat
deriving DecidableEq, Repr

/-- `Material` from src/model.rs; the bind group is an opaque handle. -/
structure Material where
  name : String
  diffuse_texture : Texture
  bind_group : Nat
deriving DecidableEq, Repr

/-- `Mesh` from src/model.rs: realized buffers, index count, and an index
into the owning model's material list. -/
structure Mesh where
  name : String
  vertex_buffer : Buffer
  index_buffer : Buffer
  num_elements : Nat
  material : Nat
deriving DecidableEq, Repr

/-- `MeshModel` from src/model.rs. -/
structure MeshModel where
  meshes : List Mesh
  materials : List Material
deriving DecidableEq, Repr

/-- A half-open range `start..stop`, as `std::ops::Range<u32>`. -/
structure Range where
  start : Nat
  stop : Nat
deriving DecidableEq, Repr

inductive IndexFormat where
  | uint32
deriving DecidableEq, Repr

/-- One command issued into a `wgpu::RenderPass` by the `DrawModel`
implementation. -/
inductive RenderCmd where
  | setVertexBuffer (slot : Nat) (buffer : Buffer)
  | setIndexBuffer (buffer : Buffer) (format : IndexFormat)
  | setBindGroup (index : Nat) (group : Nat)
  | drawIndexed (indices : Range) (base_vertex : Nat) (instances : Range)
deriving DecidableEq, Repr

/-- `RenderPass::draw_mesh_instanced`: binds the mesh's vertex buffer at
slot 0, its index buffer as Uint32, the material's bind group at index 0,
the camera bind group at index 1, and issues one indexed draw over
`0..num_elements` with the given instance range. The pass is the list of
commands issued so far. -/
def draw_mesh_instanced (pass : List RenderCmd) (mesh : Mesh)
    (material : Material) (instances : Range) (camera_bind_group : Nat) :
    List RenderCmd :=
  pass ++
    [RenderCmd.setVertexBuffer 0 mesh.vertex_buffer,
     RenderCmd.setIndexBuffer mesh.index_buffer IndexFormat.uint32,
     RenderCmd.setBindGroup 0 material.bind_group,
     RenderCmd.setBindGroup 1 camera_bind_group,
     RenderCmd.drawIndexed ⟨0, mesh.num_elements⟩ 0 instances]

/-- `RenderPass::draw_mesh`: delegates to the instanced form with range
`0..1`. -/
def draw_mesh (pass : List RenderCmd) (mesh : Mesh) (material : Material)
    (camera_bind_group : Nat) : List RenderCmd :=
  draw_mesh_instanced pass mesh material ⟨0, 1⟩ camera_bind_group

/-- The loop body of `draw_model_instanced`: for each mesh in order, resolve
`materials[mesh.material]` (an out-of-range index panics, modelled as
`none`) and issue the per-mesh instanced draw. -/
def drawModelLoop (materials : List Material) (instances : Range)
    (camera_bind_group : Nat) :
    List RenderCmd → List Mesh → Option (List RenderCmd)
  | pass, [] => some pass
  | pass, mesh :: rest =>
    match materials[mesh.material]? with
    | none => none
    | some material =>
      drawModelLoop materials instances camera_bind_group
        (draw_mesh_instanced pass mesh material instances camera_bind_group)
        rest

/-- `RenderPass::draw_model_instanced`. -/
def draw_model_instanced (pass : List RenderCmd) (model : MeshModel)
    (instances : Range) (camera_bind_group : Nat) :
    Option (List RenderCmd) :=
  drawModelLoop model.materials instances camera_bind_group pass model.meshes

/-- `RenderPass::draw_model`: delegates to the instanced form with range
`0..1`. -/
def draw_model (pass : List RenderCmd) (model : MeshModel)
    (camera_bind_group : Nat) : Option (List RenderCmd) :=
  draw_model_instanced pass model ⟨0, 1⟩ camera_bind_group

/-! ### Specification-side helpers for the draw claims -/

/-- The five commands a single `draw_mesh_instanced` call appends. -/
def meshCmds (mesh : Mesh) (material : Material) (instances : Range)
    (camera_bind_group : Nat) : List RenderCmd :=
  [RenderCmd.setVertexBuffer 0 mesh.vertex_buffer,
   RenderCmd.setIndexBuffer mesh.index_buffer IndexFormat.uint32,
   RenderCmd.setBindGroup 0 material.bind_group,
   RenderCmd.setBindGroup 1 camera_bind_group,
   RenderCmd.drawIndexed ⟨0, mesh.num_elements⟩ 0 instances]

theorem draw_mesh_instanced_eq (pass : List RenderCmd) (mesh : Mesh)
    (material : Material) (instances : Range) (camera_bind_group : Nat) :
    draw_mesh_instanced pass mesh material instances camera_bind_group =
      pass ++ meshCmds mesh material instances camera_bind_group := rfl

def defaultMaterial : Material := ⟨"", ⟨0⟩, 0⟩

def isDrawIndexed : RenderCmd → Bool
  | RenderCmd.drawIndexed _ _ _ => true
  | _ => false

theorem getElem?_eq_getD {α : Type} (l : List α) (n : Nat) (d : α)
    (h : n < l.length) : l[n]? = some (l.getD n d) := by
  induction l generalizing n with
  | nil => simp at h
  | cons x xs ih =>
    cases n with
    | zero => simp [List.getD]
    | succ k =>
      have hk : k < xs.length := by simpa using h
      simpa [List.getD] using ih k hk

theorem drawModelLoop_eq (materials : List Material) (instances : Range)
    (camera_bind_group : Nat) (meshes : List Mesh) :
    ∀ pass : List RenderCmd,
      (∀ m ∈ meshes, m.material < materials.length) →
      drawModelLoop materials instances camera_bind_group pass meshes =
        some (pass ++ (meshes.map fun m =>
          meshCmds m (materials.getD m.material defaultMaterial) instances
            camera_bind_group).flatten) := by
  induction meshes with
  | nil => intro pass _; simp [drawModelLoop]
  | cons mesh rest ih =>
    intro pass h
    have hm : mesh.material < materials.length :=
      h mesh (List.mem_cons_self mesh rest)
    have hget := getElem?_eq_getD materials mesh.material defaultMaterial hm
    have hrest : ∀ m ∈ rest, m.material < materials.length :=
      fun m hm2 => h m (List.mem_cons_of_mem mesh hm2)
    simp only [drawModelLoop, hget]
    rw [ih _ hrest, draw_mesh_instanced_eq]
    simp [List.append_assoc]

theorem join_filter_drawIndexed (instances : Range) (camera_bind_group : Nat)
    (f : Mesh → Material) (meshes : List Mesh) :
    ((meshes.map fun m =>
        meshCmds m (f m) instances camera_bind_group).flatten.filter
      isDrawIndexed) =
      meshes.map fun m =>
        RenderCmd.drawIndexed ⟨0, m.num_elements⟩ 0 instances := by
  induction meshes with
  | nil => rfl
  | cons m rest ih =>
    simp only [List.map_cons, List.flatten_cons, List.filter_append, ih]
    rfl

/-! ## Claim theorems for the model component -/

/-- Claim C1: for every `Model::new(vertices, indices, label)`, the first
`alloc_buffer` call succeeds (both assertions pass since both buffer fields
are `None`), leaves both buffers allocated, and a second `alloc_buffer` on
the result fails the assertion (aborts, modelled as `none`). -/
theorem model_alloc_buffer_once_then_abort {V : Type} (pod : Pod V)
    (vertices : List V) (indices : List Nat) (label : String) :
    ∃ m' : Model V,
      (Model.new vertices indices label).alloc_buffer pod = some m' ∧
      m'.vertex_buffer.isSome = true ∧
      m'.index_buffer.isSome = true ∧
      m'.alloc_buffer pod = none :=
  ⟨_, rfl, rfl, rfl, rfl⟩

/-- Claim C7: the non-instanced draw operations are definitionally the
instanced forms with instance range `[0,1)`: `draw_mesh` equals
`draw_mesh_instanced` with range `0..1` and `draw_model` equals
`draw_model_instanced` with range `0..1`, for all arguments. -/
theorem draw_delegates_to_instanced :
    (∀ (pass : List RenderCmd) (mesh : Mesh) (material : Material)
        (camera_bind_group : Nat),
      draw_mesh pass mesh material camera_bind_group =
        draw_mesh_instanced pass mesh material ⟨0, 1⟩ camera_bind_group) ∧
    (∀ (pass : List RenderCmd) (model : MeshModel) (camera_bind_group : Nat),
      draw_model pass model camera_bind_group =
        draw_model_instanced pass model ⟨0, 1⟩ camera_bind_group) :=
  ⟨fun _ _ _ _ => rfl, fun _ _ _ => rfl⟩

/-- Claim C2: for a `MeshModel` whose meshes all reference in-range material
indices, `draw_model_instanced` succeeds and appends, in the meshes' stored
order, the per-mesh command group of each mesh — binding that mesh's own
vertex and index buffers, the material resolved by that mesh's own material
index, and the given instance range — and the indexed draws issued are
exactly one per mesh, in order, each with the given instance range. -/
theorem draw_model_instanced_per_mesh (pass : List RenderCmd)
    (model : MeshModel) (instances : Range) (camera_bind_group : Nat)
    (h : ∀ m ∈ model.meshes, m.material < model.materials.length) :
    draw_model_instanced pass model instances camera_bind_group =
      some (pass ++ (model.meshes.map fun m =>
        meshCmds m (model.materials.getD m.material defaultMaterial)
          instances camera_bind_group).flatten) ∧
    ((model.meshes.map fun m =>
        meshCmds m (model.materials.getD m.material defaultMaterial)
          instances camera_bind_group).flatten.filter isDrawIndexed) =
      model.meshes.map fun m =>
        RenderCmd.drawIndexed ⟨0, m.num_elements⟩ 0 instances :=
  ⟨drawModelLoop_eq model.materials instances camera_bind_group
      model.meshes pass h,
   join_filter_drawIndexed instances camera_bind_group _ model.meshes⟩

/-- A two-mesh model in which both meshes reference material index 0, used
to witness the scenario of claim C2. -/
def twoMeshModel : MeshModel :=
  { meshes :=
      [⟨"m0", ⟨"vb0", [1], BufferUsage.vertex⟩,
        ⟨"ib0", [2], BufferUsage.index⟩, 6, 0⟩,
       ⟨"m1", ⟨"vb1", [3], BufferUsage.vertex⟩,
        ⟨"ib1", [4], BufferUsage.index⟩, 9, 0⟩]
    materials := [⟨"mat0", ⟨5⟩, 7⟩] }

/-- Witness for C2: the two-mesh scenario with instance range `[0,5)`:
both meshes reference material 0, which is in range, and the theorem
applies. -/
theorem draw_model_instanced_per_mesh_witness :
    (∀ m ∈ twoMeshModel.meshes,
      m.material < twoMeshModel.materials.length) ∧
    (draw_model_instanced [] twoMeshModel ⟨0, 5⟩ 11 =
      some ([] ++ (twoMeshModel.meshes.map fun m =>
        meshCmds m (twoMeshModel.materials.getD m.material defaultMaterial)
          ⟨0, 5⟩ 11).flatten) ∧
    ((twoMeshModel.meshes.map fun m =>
        meshCmds m (twoMeshModel.materials.getD m.material defaultMaterial)
          ⟨0, 5⟩ 11).flatten.filter isDrawIndexed) =
      twoMeshModel.meshes.map fun m =>
        RenderCmd.drawIndexed ⟨0, m.num_elements⟩ 0 ⟨0, 5⟩) :=
  ⟨by decide,
   draw_model_instanced_per_mesh [] twoMeshModel ⟨0, 5⟩ 11 (by decide)⟩

/-- Claim C8: a model built from three vertices, indices `[0,1,2]` and label
`"t"` allocates an index buffer of 3×4 bytes and a vertex buffer of
3×sizeof(V) bytes, and a per-mesh draw of the resulting 3-element mesh with
instance range `[0,1)` issues exactly one indexed draw covering `[0,3)`. -/
theorem triangle_model_buffers_and_draw {V : Type} (pod : Pod V)
    (a b c : V) :
    let vb : Buffer :=
      ⟨"t vertex buffer", castSliceV pod [a, b, c], BufferUsage.vertex⟩
    let ib : Buffer :=
      ⟨"t index buffer", castSliceU32 [0, 1, 2], BufferUsage.index⟩
    (Model.new [a, b, c] [0, 1, 2] "t").alloc_buffer pod =
      some { Model.new [a, b, c] [0, 1, 2] "t" with
              vertex_buffer := some vb
              index_buffer := some ib } ∧
    ib.contents.length = 3 * 4 ∧
    vb.contents.length = 3 * pod.size ∧
    ∀ (material : Material) (camera_bind_group : Nat),
      ((draw_mesh_instanced [] ⟨"t", vb, ib, 3, 0⟩ material ⟨0, 1⟩
          camera_bind_group).filter isDrawIndexed) =
        [RenderCmd.drawIndexed ⟨0, 3⟩ 0 ⟨0, 1⟩] := by
  refine ⟨rfl, rfl, ?_, fun _ _ => rfl⟩
  simp only [castSliceV, List.flatMap_cons, List.flatMap_nil,
    List.length_append, List.length_nil, pod.length_toBytes]
  ring

/-! ## Embedding of src/app.rs -/

/-- A window handle, identified by an id chosen by the event loop when
`create_window` succeeds. -/
abbrev Window : Type := Nat

/-- A keyboard event payload (opaque to the shell). -/
abbrev KeyEvent : Type := Nat

/-- `winit::dpi::PhysicalSize<u32>`. -/
structure Size where
  width : Nat
  height : Nat
deriving DecidableEq, Repr

/-- `wgpu::SurfaceError` variants relevant to the shell's match. -/
inductive SurfaceError where
  | timeout
  | outdated
  | lost
  | outOfMemory
deriving DecidableEq, Repr

/-- The `WgpuApp` trait: the abstract Application capability the shell is
parameterized over. `new` is the async constructor run to completion by the
shell; `render` may mutate the app and returns `none` on success or the
surface error on failure. -/
structure WgpuAppOps (A : Type) where
  new : Window → A
  set_window_resized : A → Size → A
  keyboard_input : A → KeyEvent → A × Bool
  render : A → A × Option SurfaceError
  update : A → A

/-- `WgpuAppHandler<A>`: the optional app instance behind the mutex, the
optional window, and the title. -/
structure WgpuAppHandler (A : Type) where
  app : Option A
  window : Option Window
  title : String

/-- `WgpuAppHandler::new`. -/
def WgpuAppHandler.new (A : Type) (title : String) : WgpuAppHandler A :=
  { app := none, window := none, title := title }

/-- Observable actions the shell performs while handling an event. -/
inductive ShellAction where
  | exitLoop
  | createWindowAction
  | constructApp
  | appSetWindowResized (s : Size)
  | appKeyboardInput (k : KeyEvent)
  | appUpdate
  | prePresentNotify
  | appRender (result : Option SurfaceError)
  | logSurfaceError (e : SurfaceError)
  | requestRedrawAction
deriving DecidableEq

/-- `WgpuAppHandler::pre_present_notify`: notifies only when a window
exists. -/
def pre_present_notify {A : Type} (st : WgpuAppHandler A) :
    List ShellAction :=
  match st.window with
  | some _ => [ShellAction.prePresentNotify]
  | none => []

/-- `WgpuAppHandler::request_redraw`: requests only when a window exists. -/
def request_redraw {A : Type} (st : WgpuAppHandler A) : List ShellAction :=
  match st.window with
  | some _ => [ShellAction.requestRedrawAction]
  | none => []

/-- `WgpuAppHandler::resumed`: returns immediately if the app instance is
already present; otherwise creates the window (id supplied by the event
loop), blocks on `A::new`, and stores both. -/
def resumed {A : Type} (ops : WgpuAppOps A) (createdWindow : Window)
    (st : WgpuAppHandler A) : WgpuAppHandler A × List ShellAction :=
  if st.app.isSome then (st, [])
  else
    ({ st with
        app := some (ops.new createdWindow)
        window := some createdWindow },
     [ShellAction.createWindowAction, ShellAction.constructApp])

/-- Window events dispatched to the shell. -/
inductive WindowEvent where
  | closeRequested
  | resized (s : Size)
  | keyboardInput (k : KeyEvent)
  | redrawRequested
  | other
deriving DecidableEq, Repr

/-- `WgpuAppHandler::window_event`: first unwraps the optional app instance
(`unwrap` on `None` panics, modelled as `none`), then matches the event:
close exits the loop; a resize with zero width or height is ignored; a
nonzero resize is forwarded to `set_window_resized`; keyboard input is
forwarded with its result discarded; a redraw request runs `update`, the
pre-present notification, `render` (failures only logged), and then
unconditionally re-requests a redraw. -/
def window_event {A : Type} (ops : WgpuAppOps A) (st : WgpuAppHandler A)
    (event : WindowEvent) :
    Option (WgpuAppHandler A × List ShellAction) :=
  match st.app with
  | none => none
  | some app =>
    match event with
    | WindowEvent.closeRequested => some (st, [ShellAction.exitLoop])
    | WindowEvent.resized s =>
      if s.width = 0 ∨ s.height = 0 then
        some (st, [])
      else
        some ({ st with app := some (ops.set_window_resized app s) },
          [ShellAction.appSetWindowResized s])
    | WindowEvent.keyboardInput k =>
      some ({ st with app := some (ops.keyboard_input app k).1 },
        [ShellAction.appKeyboardInput k])
    | WindowEvent.redrawRequested =>
      let app1 := ops.update app
      let rendered := ops.render app1
      let logActions : List ShellAction :=
        match rendered.2 with
        | none => []
        | some e => [ShellAction.logSurfaceError e]
      some ({ st with app := some rendered.1 },
        ShellAction.appUpdate ::
          (pre_present_notify st ++
            (ShellAction.appRender rendered.2 ::
              (logActions ++ request_redraw st))))
    | WindowEvent.other => some (st, [])

/-! ## Embedding of the resize logic of examples/load_model/main.rs -/

/-- Calls made against the `wgpu::Surface` by the example App. -/
inductive SurfaceOp where
  | configure (width height : Nat)
  | getCurrentTexture
  | present
deriving DecidableEq, Repr

/-- The fields of the example `App` that the resize logic reads or writes:
the pending logical size, the size-changed flag, and the live surface
configuration's dimensions. The pipeline, camera, instance and depth-texture
fields play no part in the resize claims and are omitted. -/
structure AppState where
  size : Size
  size_changed : Bool
  surface_config_width : Nat
  surface_config_height : Nat
deriving DecidableEq, Repr

/-- `App::set_window_resized`: records the new size and sets the flag, but
only when the size actually differs from the stored one; performs no
surface call. -/
def AppState.set_window_resized (st : AppState) (new_size : Size) :
    AppState :=
  if new_size = st.size then st
  else { st with size := new_size, size_changed := true }

/-- `App::resize_surface_if_needed`: when the flag is set, copies the
pending size into the surface configuration, reconfigures the surface
(one `configure` call), and clears the flag; otherwise does nothing. -/
def AppState.resize_surface_if_needed (st : AppState) :
    AppState × List SurfaceOp :=
  if st.size_changed then
    ({ st with
        surface_config_width := st.size.width
        surface_config_height := st.size.height
        size_changed := false },
     [SurfaceOp.configure st.size.width st.size.height])
  else (st, [])

/-- `App::render`, restricted to its surface interactions: it first calls
`resize_surface_if_needed`, then acquires the current texture, records and
submits the draw commands (which never touch the surface configuration),
and presents. -/
def AppState.render (st : AppState) : AppState × List SurfaceOp :=
  let resize := st.resize_surface_if_needed
  (resize.1, resize.2 ++ [SurfaceOp.getCurrentTexture, SurfaceOp.present])

/-- Number of surface reconfigurations among a list of surface calls. -/
def configures (ops : List SurfaceOp) : Nat :=
  (ops.filter fun op =>
    match op with
    | SurfaceOp.configure _ _ => true
    | _ => false).length

/-! ## Embedding of src/resource.rs -/

/-- A filesystem error (`std::io::Error`), carried unchanged through the
loaders. -/
inductive FsError where
  | notFound
  | permissionDenied
  | other (code : Nat)
deriving DecidableEq, Repr

/-- An image-decoding error from texture construction. -/
inductive DecodeError where
  | invalidImage (code : Nat)
deriving DecidableEq, Repr

/-- The host filesystem as seen by the loaders: the current working
directory (a path, or an error) and the two read operations, each mapping
an absolute path (a list of components) to contents or an error. -/
structure FileSystem where
  current_dir : Except FsError (List String)
  read_to_string : List String → Except FsError String
  readBytes : List String → Except FsError (List Nat)

/-- `resource::load_string`: joins `res`, `cube` and the file name onto the
current directory and reads the file as text; any filesystem error is
returned unchanged. -/
def load_string (fs : FileSystem) (file_name : String) :
    Except FsError String :=
  match fs.current_dir with
  | Except.error e => Except.error e
  | Except.ok cwd => fs.read_to_string (cwd ++ ["res", "cube", file_name])

/-- `resource::load_binary`: same path resolution, binary read. -/
def load_binary (fs : FileSystem) (file_name : String) :
    Except FsError (List Nat) :=
  match fs.current_dir with
  | Except.error e => Except.error e
  | Except.ok cwd => fs.readBytes (cwd ++ ["res", "cube", file_name])

/-- Modelled from the spec: `Texture::from_bytes` (the `texture` module is
not under src/; only its callers are) decodes image bytes, labelled with
the file name, into a texture or returns a decode error. -/
structure TextureDecoder where
  from_bytes : List Nat → String → Except DecodeError Texture

/-- The error type of `load_texture` (`anyhow::Error`): either the
filesystem error or the decode error, carried unchanged. -/
inductive LoadError where
  | fsErr (e : FsError)
  | decodeErr (e : DecodeError)
deriving DecidableEq, Repr

/-- `resource::load_texture`: loads the bytes with `load_binary` (the `?`
operator propagates its error) and hands them to `Texture::from_bytes`. -/
def load_texture (fs : FileSystem) (dec : TextureDecoder)
    (file_name : String) : Except LoadError Texture :=
  match load_binary fs file_name with
  | Except.error e => Except.error (LoadError.fsErr e)
  | Except.ok data =>
    match dec.from_bytes data file_name with
    | Except.error e => Except.error (LoadError.decodeErr e)
    | Except.ok t => Except.ok t

/-! ## Claim theorems for the shell, the resize logic and the loaders -/

def isConstructApp : ShellAction → Bool
  | ShellAction.constructApp => true
  | _ => false

/-- Claim C4: a "resumed" signal delivered twice in a row constructs the
Application exactly once: the first call (on a handler with no app) creates
the window and the app; the second call returns with the state unchanged
and performs no action, so exactly one construction happens overall. -/
theorem resumed_constructs_once {A : Type} (ops : WgpuAppOps A)
    (w1 w2 : Window) (st : WgpuAppHandler A) (h : st.app = none) :
    (resumed ops w1 st).1.app = some (ops.new w1) ∧
    (resumed ops w1 st).1.window = some w1 ∧
    (resumed ops w1 st).2 =
      [ShellAction.createWindowAction, ShellAction.constructApp] ∧
    resumed ops w2 (resumed ops w1 st).1 = ((resumed ops w1 st).1, []) ∧
    (((resumed ops w1 st).2 ++
        (resumed ops w2 (resumed ops w1 st).1).2).filter
      isConstructApp).length = 1 := by
  simp [resumed, h, isConstructApp]

/-- A concrete Application instance over `Nat` state, used by the shell
witnesses. -/
def natAppOps : WgpuAppOps Nat :=
  { new := fun w => w
    set_window_resized := fun a _ => a + 1
    keyboard_input := fun a _ => (a, false)
    render := fun a => (a, none)
    update := fun a => a }

/-- Witness for C4 at a freshly constructed handler. -/
theorem resumed_constructs_once_witness :
    (WgpuAppHandler.new Nat "t").app = none ∧
    ((resumed natAppOps 1 (WgpuAppHandler.new Nat "t")).1.app =
        some (natAppOps.new 1) ∧
    (resumed natAppOps 1 (WgpuAppHandler.new Nat "t")).1.window = some 1 ∧
    (resumed natAppOps 1 (WgpuAppHandler.new Nat "t")).2 =
      [ShellAction.createWindowAction, ShellAction.constructApp] ∧
    resumed natAppOps 2 (resumed natAppOps 1 (WgpuAppHandler.new Nat "t")).1 =
      ((resumed natAppOps 1 (WgpuAppHandler.new Nat "t")).1, []) ∧
    (((resumed natAppOps 1 (WgpuAppHandler.new Nat "t")).2 ++
        (resumed natAppOps 2
          (resumed natAppOps 1 (WgpuAppHandler.new Nat "t")).1).2).filter
      isConstructApp).length = 1) :=
  ⟨rfl, resumed_constructs_once natAppOps 1 2 (WgpuAppHandler.new Nat "t") rfl⟩

/-- The action trace of one redraw-request event on a handler that has a
window, as a function of the render result. -/
def redrawTrace (res : Option SurfaceError) : List ShellAction :=
  ShellAction.appUpdate :: ShellAction.prePresentNotify ::
    ShellAction.appRender res ::
    ((match res with
      | none => []
      | some e => [ShellAction.logSurfaceError e]) ++
     [ShellAction.requestRedrawAction])

/-- Claim C5: on a redraw-request event the shell invokes `update`, then the
pre-present notification, then `render`; a render failure is only logged
(the trace gains a log entry, nothing else changes); the loop is never
exited; and the trace always ends by re-requesting a redraw. -/
theorem redraw_update_prepresent_render_redraw {A : Type}
    (ops : WgpuAppOps A) (st : WgpuAppHandler A) (a : A) (w : Window)
    (h1 : st.app = some a) (h2 : st.window = some w) :
    window_event ops st WindowEvent.redrawRequested =
      some ({ st with app := some (ops.render (ops.update a)).1 },
        redrawTrace (ops.render (ops.update a)).2) ∧
    ShellAction.exitLoop ∉ redrawTrace (ops.render (ops.update a)).2 ∧
    (redrawTrace (ops.render (ops.update a)).2).getLast? =
      some ShellAction.requestRedrawAction := by
  cases hres : (ops.render (ops.update a)).2 with
  | none =>
    refine ⟨?_, by simp [redrawTrace, hres], by simp [redrawTrace, hres]⟩
    simp [window_event, h1, h2, pre_present_notify, request_redraw,
      redrawTrace, hres]
  | some e =>
    refine ⟨?_, by simp [redrawTrace, hres], by simp [redrawTrace, hres]⟩
    simp [window_event, h1, h2, pre_present_notify, request_redraw,
      redrawTrace, hres]

/-- Witness for C5 on a concrete running handler. -/
theorem redraw_update_prepresent_render_redraw_witness :
    ((⟨some 5, some 3, "t"⟩ : WgpuAppHandler Nat).app = some 5 ∧
     (⟨some 5, some 3, "t"⟩ : WgpuAppHandler Nat).window = some 3) ∧
    (window_event natAppOps (⟨some 5, some 3, "t"⟩ : WgpuAppHandler Nat)
        WindowEvent.redrawRequested =
      some ({ (⟨some 5, some 3, "t"⟩ : WgpuAppHandler Nat) with
              app := some (natAppOps.render (natAppOps.update 5)).1 },
        redrawTrace (natAppOps.render (natAppOps.update 5)).2) ∧
    ShellAction.exitLoop ∉
      redrawTrace (natAppOps.render (natAppOps.update 5)).2 ∧
    (redrawTrace (natAppOps.render (natAppOps.update 5)).2).getLast? =
      some ShellAction.requestRedrawAction) :=
  ⟨⟨rfl, rfl⟩,
   redraw_update_prepresent_render_redraw natAppOps _ 5 3 rfl rfl⟩

/-- Claim C6: a resize event with zero width or height is ignored by the
shell — the handler state (including the app, hence its stored logical
size) is returned unchanged and no action is performed — and, at the
example App level, a frame rendered with the size-changed flag clear
performs no surface reconfiguration, so the ignored event cannot trigger
one on the next frame. -/
theorem zero_resize_ignored {A : Type} (ops : WgpuAppOps A)
    (st : WgpuAppHandler A) (a : A) (s : Size) (h1 : st.app = some a)
    (hz : s.width = 0 ∨ s.height = 0) :
    window_event ops st (WindowEvent.resized s) = some (st, []) ∧
    ∀ ast : AppState, ast.size_changed = false →
      configures ast.render.2 = 0 := by
  refine ⟨?_, ?_⟩
  · rcases hz with hw | hh
    · simp [window_event, h1, hw]
    · simp [window_event, h1, hh]
  · intro ast hflag
    simp [AppState.render, AppState.resize_surface_if_needed, hflag,
      configures]

/-- Witness for C6: a minimize event (width 0). -/
theorem zero_resize_ignored_witness :
    ((⟨some 5, some 3, "t"⟩ : WgpuAppHandler Nat).app = some 5 ∧
     ((⟨0, 7⟩ : Size).width = 0 ∨ (⟨0, 7⟩ : Size).height = 0)) ∧
    (window_event natAppOps (⟨some 5, some 3, "t"⟩ : WgpuAppHandler Nat)
        (WindowEvent.resized ⟨0, 7⟩) =
      some ((⟨some 5, some 3, "t"⟩ : WgpuAppHandler Nat), []) ∧
    ∀ ast : AppState, ast.size_changed = false →
      configures ast.render.2 = 0) :=
  ⟨⟨rfl, Or.inl rfl⟩,
   zero_resize_ignored natAppOps _ 5 ⟨0, 7⟩ rfl (Or.inl rfl)⟩

/-- Claim C3: a resize event to a new size `s` (distinct from the stored
size, flag initially clear) updates only the pending size and the flag —
the surface configuration is untouched at event time; the next render
applies it with exactly one surface reconfiguration and clears the flag; a
further render reconfigures zero times; and a resize event whose size
equals the stored size changes nothing, so a render after it reconfigures
zero times. -/
theorem resize_two_phase_single_reconfigure (st : AppState) (s : Size)
    (hflag : st.size_changed = false) (hne : s ≠ st.size) :
    (st.set_window_resized s).surface_config_width =
      st.surface_config_width ∧
    (st.set_window_resized s).surface_config_height =
      st.surface_config_height ∧
    (st.set_window_resized s).size = s ∧
    (st.set_window_resized s).size_changed = true ∧
    configures (st.set_window_resized s).render.2 = 1 ∧
    (st.set_window_resized s).render.1.surface_config_width = s.width ∧
    (st.set_window_resized s).render.1.surface_config_height = s.height ∧
    (st.set_window_resized s).render.1.size_changed = false ∧
    configures (st.set_window_resized s).render.1.render.2 = 0 ∧
    st.set_window_resized st.size = st ∧
    configures st.render.2 = 0 := by
  simp [AppState.set_window_resized, AppState.render,
    AppState.resize_surface_if_needed, configures, hflag, hne]

/-- Witness for C3: an 800×600 state resized to 1024×768. -/
theorem resize_two_phase_single_reconfigure_witness :
    ((⟨⟨800, 600⟩, false, 800, 600⟩ : AppState).size_changed = false ∧
     (⟨1024, 768⟩ : Size) ≠ (⟨⟨800, 600⟩, false, 800, 600⟩ : AppState).size) ∧
    (((⟨⟨800, 600⟩, false, 800, 600⟩ : AppState).set_window_resized
        ⟨1024, 768⟩).surface_config_width =
      (⟨⟨800, 600⟩, false, 800, 600⟩ : AppState).surface_config_width ∧
    ((⟨⟨800, 600⟩, false, 800, 600⟩ : AppState).set_window_resized
        ⟨1024, 768⟩).surface_config_height =
      (⟨⟨800, 600⟩, false, 800, 600⟩ : AppState).surface_config_height ∧
    ((⟨⟨800, 600⟩, false, 800, 600⟩ : AppState).set_window_resized
        ⟨1024, 768⟩).size = ⟨1024, 768⟩ ∧
    ((⟨⟨800, 600⟩, false, 800, 600⟩ : AppState).set_window_resized
        ⟨1024, 768⟩).size_changed = true ∧
    configures ((⟨⟨800, 600⟩, false, 800, 600⟩ : AppState).set_window_resized
        ⟨1024, 768⟩).render.2 = 1 ∧
    ((⟨⟨800, 600⟩, false, 800, 600⟩ : AppState).set_window_resized
        ⟨1024, 768⟩).render.1.surface_config_width =
      (⟨1024, 768⟩ : Size).width ∧
    ((⟨⟨800, 600⟩, false, 800, 600⟩ : AppState).set_window_resized
        ⟨1024, 768⟩).render.1.surface_config_height =
      (⟨1024, 768⟩ : Size).height ∧
    ((⟨⟨800, 600⟩, false, 800, 600⟩ : AppState).set_window_resized
        ⟨1024, 768⟩).render.1.size_changed = false ∧
    configures ((⟨⟨800, 600⟩, false, 800, 600⟩ : AppState).set_window_resized
        ⟨1024, 768⟩).render.1.render.2 = 0 ∧
    (⟨⟨800, 600⟩, false, 800, 600⟩ : AppState).set_window_resized
        (⟨⟨800, 600⟩, false, 800, 600⟩ : AppState).size =
      (⟨⟨800, 600⟩, false, 800, 600⟩ : AppState) ∧
    configures (⟨⟨800, 600⟩, false, 800, 600⟩ : AppState).render.2 = 0) :=
  ⟨⟨rfl, by decide⟩,
   resize_two_phase_single_reconfigure ⟨⟨800, 600⟩, false, 800, 600⟩
     ⟨1024, 768⟩ rfl (by decide)⟩

/-- Claim C10: every window event handled before the Application has been
constructed panics: the handler unwraps the optional instance before
matching the event, so close, resize, keyboard and redraw events all
require initialization to have happened. -/
theorem window_event_requires_initialized_app {A : Type}
    (ops : WgpuAppOps A) (st : WgpuAppHandler A) (event : WindowEvent)
    (h : st.app = none) : window_event ops st event = none := by
  simp [window_event, h]

/-- Witness for C10: a close request on a fresh handler panics. -/
theorem window_event_requires_initialized_app_witness :
    (WgpuAppHandler.new Nat "t").app = none ∧
    window_event natAppOps (WgpuAppHandler.new Nat "t")
      WindowEvent.closeRequested = none :=
  ⟨rfl,
   window_event_requires_initialized_app natAppOps
     (WgpuAppHandler.new Nat "t") WindowEvent.closeRequested rfl⟩

/-- Claim C9: both loaders resolve the file name against
`<cwd>/res/cube/<file_name>` and return exactly what the filesystem
returns there (so any filesystem error is surfaced unchanged, with no
retry and no fallback path), and `load_texture` returns the filesystem
error from binary loading, or the decode error from texture construction,
or the decoded texture. -/
theorem resource_paths_and_error_propagation (fs : FileSystem)
    (dec : TextureDecoder) (file_name : String) (cwd : List String)
    (hcwd : fs.current_dir = Except.ok cwd) :
    load_string fs file_name =
      fs.read_to_string (cwd ++ ["res", "cube", file_name]) ∧
    load_binary fs file_name =
      fs.readBytes (cwd ++ ["res", "cube", file_name]) ∧
    (∀ e, fs.readBytes (cwd ++ ["res", "cube", file_name]) =
        Except.error e →
      load_texture fs dec file_name = Except.error (LoadError.fsErr e)) ∧
    (∀ data e, fs.readBytes (cwd ++ ["res", "cube", file_name]) =
        Except.ok data →
      dec.from_bytes data file_name = Except.error e →
      load_texture fs dec file_name =
        Except.error (LoadError.decodeErr e)) ∧
    (∀ data t, fs.readBytes (cwd ++ ["res", "cube", file_name]) =
        Except.ok data →
      dec.from_bytes data file_name = Except.ok t →
      load_texture fs dec file_name = Except.ok t) := by
  refine ⟨by simp [load_string, hcwd], by simp [load_binary, hcwd],
    ?_, ?_, ?_⟩
  · intro e he
    simp [load_texture, load_binary, hcwd, he]
  · intro data e hdata hdec
    simp [load_texture, load_binary, hcwd, hdata, hdec]
  · intro data t hdata hdec
    simp [load_texture, load_binary, hcwd, hdata, hdec]

/-- A concrete filesystem whose binary reads fail, for the C9 witness. -/
def fsFixture : FileSystem :=
  { current_dir := Except.ok ["home"]
    read_to_string := fun p =>
      if p = ["home", "res", "cube", "a.txt"] then Except.ok "hi"
      else Except.error FsError.notFound
    readBytes := fun _ => Except.error (FsError.other 3) }

/-- A decoder that rejects every input, for the C9 witness. -/
def rejectingDecoder : TextureDecoder :=
  ⟨fun _ _ => Except.error (DecodeError.invalidImage 1)⟩

/-- Witness for C9 on the concrete filesystem. -/
theorem resource_paths_and_error_propagation_witness :
    fsFixture.current_dir = Except.ok ["home"] ∧
    (load_string fsFixture "a.txt" =
      fsFixture.read_to_string (["home"] ++ ["res", "cube", "a.txt"]) ∧
    load_binary fsFixture "a.txt" =
      fsFixture.readBytes (["home"] ++ ["res", "cube", "a.txt"]) ∧
    (∀ e, fsFixture.readBytes (["home"] ++ ["res", "cube", "a.txt"]) =
        Except.error e →
      load_texture fsFixture rejectingDecoder "a.txt" =
        Except.error (LoadError.fsErr e)) ∧
    (∀ data e, fsFixture.readBytes (["home"] ++ ["res", "cube", "a.txt"]) =
        Except.ok data →
      rejectingDecoder.from_bytes data "a.txt" = Except.error e →
      load_texture fsFixture rejectingDecoder "a.txt" =
        Except.error (LoadError.decodeErr e)) ∧
    (∀ data t, fsFixture.readBytes (["home"] ++ ["res", "cube", "a.txt"]) =
        Except.ok data →
      rejectingDecoder.from_bytes data "a.txt" = Except.ok t →
      load_texture fsFixture rejectingDecoder "a.txt" = Except.ok t)) :=
  ⟨rfl,
   resource_paths_and_error_propagation fsFixture rejectingDecoder "a.txt"
     ["home"] rfl⟩

end WgpuDance
